import Mathlib

/-!
Verification development for the NetworkAnalyzer repository.

The per-source extractors (`parse_ifconfig`, `parse_hardware_port_mapping`,
`parse_dns_servers`, `parse_airport_info`, `parse_netstat_interface`,
`parse_dhcp_info`, the ARP / connection listings) and the health engine
(`assess_network_health`) are embedded as executable Lean functions over
`String`.  Python `int` values are embedded as `Int`, Python `float` values
as `ℚ` (the scoring thresholds and test values used below are exact in both),
and a Python function that can raise is embedded as `Except String _`, the
error carrying the exception message.
-/

namespace NetworkAnalyzer

/-- Decidable equality for `Except`, so that concrete runs of the fallible
embeddings can be checked by `decide`. -/
instance {ε α : Type} [DecidableEq ε] [DecidableEq α] : DecidableEq (Except ε α) := fun x y =>
  match x, y with
  | .error a, .error b =>
    if h : a = b then .isTrue (by rw [h]) else .isFalse (fun hEq => h (Except.error.inj hEq))
  | .ok a, .ok b =>
    if h : a = b then .isTrue (by rw [h]) else .isFalse (fun hEq => h (Except.ok.inj hEq))
  | .error _, .ok _ => .isFalse (fun hEq => Except.noConfusion hEq)
  | .ok _, .error _ => .isFalse (fun hEq => Except.noConfusion hEq)

/-! ## Python-style character classes and string helpers -/

/-- Python `str.isspace` / regex `\s` character class (ASCII range, which is
all the diagnostic-tool output uses). -/
def pyIsSpace (c : Char) : Bool :=
  c = ' ' || c = '\t' || c = '\n' || c = '\r' || c = '\x0b' || c = '\x0c'

/-- Regex `\d` (ASCII). -/
def pyIsDigit (c : Char) : Bool :=
  '0' ≤ c && c ≤ '9'

/-- Character class `[0-9a-f]` (lower-case hex). -/
def isHexLower (c : Char) : Bool :=
  pyIsDigit c || ('a' ≤ c && c ≤ 'f')

/-- Character class `[0-9a-fA-F]`, and `[0-9a-f]` under `re.IGNORECASE`. -/
def isHexAny (c : Char) : Bool :=
  isHexLower c || ('A' ≤ c && c ≤ 'F')

/-- Regex `\w` (ASCII). -/
def pyIsWord (c : Char) : Bool :=
  pyIsDigit c || ('a' ≤ c && c ≤ 'z') || ('A' ≤ c && c ≤ 'Z') || c = '_'

/-- Does the first list start with the second one? -/
def listStartsWith : List Char → List Char → Bool
  | _, [] => true
  | [], _ :: _ => false
  | c :: cs, d :: ds => c = d && listStartsWith cs ds

/-- ASCII lower-casing, for `re.IGNORECASE` matching. -/
def lowerChar (c : Char) : Char :=
  if 'A' ≤ c && c ≤ 'Z' then Char.ofNat (c.toNat + 32) else c

/-- Case-insensitive version of `listStartsWith`. -/
def listStartsWithCI : List Char → List Char → Bool
  | _, [] => true
  | [], _ :: _ => false
  | c :: cs, d :: ds => lowerChar c = lowerChar d && listStartsWithCI cs ds

/-- `str.strip()` on a character list. -/
def stripChars (cs : List Char) : List Char :=
  ((cs.dropWhile pyIsSpace).reverse.dropWhile pyIsSpace).reverse

/-- Python `str.strip()`. -/
def pyStrip (s : String) : String :=
  ⟨stripChars s.data⟩

/-- Python `s.startswith(p)`. -/
def pyStartsWith (s p : String) : Bool :=
  listStartsWith s.data p.data

/-- Python `str.split(sep)` for a single-character separator, on character
lists: always at least one (possibly empty) piece. -/
def splitOnCharAux (sep : Char) : List Char → List (List Char)
  | [] => [[]]
  | c :: rest =>
    match splitOnCharAux sep rest with
    | [] => [[]]
    | h :: t => if c = sep then [] :: h :: t else (c :: h) :: t

/-- Python `str.split(sep)` for a single-character separator. -/
def pySplitChar (s : String) (sep : Char) : List String :=
  (splitOnCharAux sep s.data).map fun cs => ⟨cs⟩

/-- Python `str.split('\n')`. -/
def splitLines (s : String) : List String :=
  pySplitChar s '\n'

/-- Python `sep.join(pieces)`. -/
def joinWith (sep : String) : List String → String
  | [] => ""
  | [x] => x
  | x :: y :: rest => x ++ sep ++ joinWith sep (y :: rest)

/-- Helper for `pySplitWs`: accumulate the current token (reversed). -/
def wsTokensAux : List Char → List Char → List (List Char)
  | [], acc => if acc.isEmpty then [] else [acc.reverse]
  | c :: cs, acc =>
    if pyIsSpace c then
      if acc.isEmpty then wsTokensAux cs [] else acc.reverse :: wsTokensAux cs []
    else wsTokensAux cs (c :: acc)

/-- Python `str.split()` with no argument: split on whitespace runs, no empty
tokens. -/
def pySplitWs (s : String) : List String :=
  (wsTokensAux s.data []).map fun cs => ⟨cs⟩

/-- Numeric value of a decimal digit character. -/
def digitVal (c : Char) : Nat :=
  c.toNat - '0'.toNat

/-- Run of decimal digits as accepted by Python `int()`: digits with single
underscores allowed between digits (`"1_0"` parses, `"1__0"`/`"1_"` do not). -/
def pyDigitsAux : Nat → List Char → Option Nat
  | acc, [] => some acc
  | acc, c :: cs =>
    if pyIsDigit c then pyDigitsAux (acc * 10 + digitVal c) cs
    else if c = '_' then
      match cs with
      | [] => none
      | d :: rest =>
        if pyIsDigit d then pyDigitsAux (acc * 10 + digitVal d) rest else none
    else none

/-- Python `int(s)` on a whitespace-free token: optional sign, then a digit
run; `none` models the `ValueError` branch. -/
def pyIntParse (s : String) : Option Int :=
  match s.data with
  | '-' :: rest =>
    match rest with
    | d :: _ => if pyIsDigit d then (pyDigitsAux 0 rest).map (fun n => -(n : Int)) else none
    | [] => none
  | '+' :: rest =>
    match rest with
    | d :: _ => if pyIsDigit d then (pyDigitsAux 0 rest).map (fun n => (n : Int)) else none
    | [] => none
  | d :: _ =>
    if pyIsDigit d then (pyDigitsAux 0 s.data).map (fun n => (n : Int)) else none
  | [] => none

/-- Value of a hex digit character. -/
def hexDigitVal (c : Char) : Nat :=
  if pyIsDigit c then digitVal c
  else if 'a' ≤ c && c ≤ 'f' then c.toNat - 'a'.toNat + 10
  else if 'A' ≤ c && c ≤ 'F' then c.toNat - 'A'.toNat + 10
  else 0

/-- Value of a hex digit string (callers pass only `[0-9a-fA-F]` characters). -/
def hexVal (cs : List Char) : Nat :=
  cs.foldl (fun a c => a * 16 + hexDigitVal c) 0

/-- Python `int(s, 16)` on a string of hex digits; the empty string raises
`ValueError`, which is the one failure the repository can actually hit. -/
def pyIntHex (cs : List Char) : Except String Nat :=
  if cs.isEmpty then
    .error "ValueError: invalid literal for int() with base 16: ''"
  else
    .ok (hexVal cs)

/-- Scanner for Python `sub in s`. -/
def containsAux (needle : List Char) : List Char → Bool
  | [] => listStartsWith [] needle
  | c :: cs => listStartsWith (c :: cs) needle || containsAux needle cs

/-- Python substring containment `sub in s`. -/
def strContains (s sub : String) : Bool :=
  containsAux sub.data s.data

/-! ## Rational fixed-point formatting

Embeds the f-string `:.1f` / `:.2f` conversions.  The repository formats
IEEE-754 floats; here the same rounding (half to even) is performed exactly on
`ℚ`.  No theorem below depends on the digits of a formatted number. -/

/-- Floor of a rational, via flooring integer division. -/
def ratFloor (q : ℚ) : Int :=
  Int.fdiv q.num q.den

/-- Round half to even, as Python float formatting does. -/
def roundHalfEven (q : ℚ) : Int :=
  let f := ratFloor q
  if q - (f : ℚ) < 1/2 then f
  else if (1 : ℚ)/2 < q - (f : ℚ) then f + 1
  else if f % 2 = 0 then f else f + 1

/-- Left-pad a numeral string with zeros to the given width. -/
def padZeros (s : String) (width : Nat) : String :=
  ⟨List.replicate (width - s.length) '0'⟩ ++ s

/-- Python `f"{q:.df}"` fixed-point formatting of a rational. -/
def fmtFixed (q : ℚ) (d : Nat) : String :=
  let n := roundHalfEven (q * ((10 : ℚ) ^ d))
  let sign := if n < 0 then "-" else ""
  let m := n.natAbs
  if d = 0 then sign ++ toString m
  else sign ++ toString (m / 10 ^ d) ++ "." ++ padZeros (toString (m % 10 ^ d)) d

/-! ## Data model

Records are translated from how the parsing and scoring code constructs and
reads them.  The repository's `models.py` is not part of the sources given, so
field optionality follows the spec's data-model section. -/

/-- Interface record built by `parse_ifconfig`. -/
structure InterfaceInfo where
  name : String
  hardware_port : String
  mac_address : String
  ipv4_address : Option String
  ipv6_addresses : List String
  netmask : Option String
  status : String
  media_type : String
  mtu : Int
  deriving DecidableEq, Repr

/-- Link-counter record built by `parse_netstat_interface`. -/
structure NetworkMetrics where
  interface : String
  packets_in : Int
  errors_in : Int
  bytes_in : Int
  packets_out : Int
  errors_out : Int
  bytes_out : Int
  collisions : Int
  deriving DecidableEq, Repr

/-- Wireless-association record built by `parse_airport_info`.  The `band`
field is modelled from the spec: a derived 2.4 GHz / 5 GHz classification
(the record class itself is outside the given sources). -/
structure WiFiInfo where
  ssid : String
  bssid : String
  channel : Int
  rssi : Int
  noise : Int
  snr : Int
  tx_rate : Int
  mcs_index : Int
  phy_mode : String
  security : String
  channel_width : Int
  band : String
  deriving DecidableEq, Repr

/-- Modelled from the spec: `PingResult` (the record class is outside the
given sources).  Per the spec's data model the min/avg/max/stddev round-trip
fields are optional and are absent for a failed/unreachable run. -/
structure PingResult where
  host : String
  packets_sent : Int
  packets_received : Int
  packet_loss : ℚ
  min_rtt : Option ℚ := none
  avg_rtt : Option ℚ := none
  max_rtt : Option ℚ := none
  stddev_rtt : Option ℚ := none
  deriving DecidableEq, Repr

/-- Modelled from the spec: derived jitter, defined as the stddev RTT when
present, else 0. -/
def PingResult.jitter (p : PingResult) : ℚ :=
  p.stddev_rtt.getD 0

/-- Modelled from the spec: speed-test record; the health engine reads only
the download/upload throughput in Mbps. -/
structure SpeedTestResult where
  download_mbps : ℚ
  upload_mbps : ℚ
  deriving DecidableEq, Repr

/-- Health verdict assembled by `assess_network_health`. -/
structure HealthStatus where
  overall : String
  score : Int
  warnings : List String
  errors : List String
  recommendations : List String
  deriving DecidableEq, Repr

/-- Modelled from the spec: `HealthStatus.from_score` derives the overall
category from the score alone via fixed excellent/good/fair/poor bands (the
class is outside the given sources; the exact boundary values are documented
as not safety-critical). -/
def HealthStatus.from_score (score : Int) : String :=
  if score ≥ 90 then "excellent"
  else if score ≥ 70 then "good"
  else if score ≥ 50 then "fair"
  else "poor"

/-- DHCP record; `parse_dhcp_info` returns a dict with exactly these keys,
typed here as the spec's `DHCPInfo`. -/
structure DHCPInfo where
  is_dhcp : Bool
  server : Option String
  router : Option String
  dns_servers : List String
  domain_name : Option String
  lease_time : Option Int
  subnet_mask : Option String
  deriving DecidableEq, Repr

/-! ## Health assessment engine (`utils.assess_network_health`)

The engine is a straight-line sequence of checks mutating
`score/warnings/errors/recommendations`; the state is threaded as a tuple, one
definition per source-code block, applied in the source's order.  A Python
comparison `result.avg_rtt > 100` on an absent (`None`) value raises
`TypeError`; that is embedded as the `Except` error case. -/

/-- Mutable state of the engine: score, warnings, errors, recommendations. -/
abbrev HState := Int × List String × List String × List String

/-- Interface-status check (first block of `assess_network_health`). -/
def statusCheck (interface_info : InterfaceInfo) (st : HState) : HState :=
  let (score, w, e, r) := st
  if interface_info.status ≠ "active" then
    (score - 50, w, e ++ ["Interface is not active"],
     r ++ ["Check interface configuration and ensure it's enabled"])
  else st

/-- Error-rate and collision checks (second block).  The rational values are
written with `mkRat`, which denotes exactly the same numbers as the source's
`(errors_in + errors_out) / total * 100`, `0.1`, and `total * 0.01` (in exact
arithmetic `e / t * 100 = (e * 100) / t`), but in a normal form the kernel
can evaluate. -/
def metricsCheck (metrics : Option NetworkMetrics) (st : HState) : HState :=
  match metrics with
  | none => st
  | some m =>
    let (score, w, e, r) := st
    let total : Int := m.packets_in + m.packets_out
    if total > 0 then
      let error_rate : ℚ := mkRat ((m.errors_in + m.errors_out) * 100) total.toNat
      let st1 : HState :=
        if error_rate > 1 then
          (score - 20, w, e ++ ["High error rate: " ++ fmtFixed error_rate 2 ++ "%"],
           r ++ ["Check network cables or WiFi signal strength"])
        else if error_rate > mkRat 1 10 then
          (score - 10, w ++ ["Moderate error rate: " ++ fmtFixed error_rate 2 ++ "%"], e, r)
        else (score, w, e, r)
      let (s1, w1, e1, r1) := st1
      if mkRat m.collisions 1 > mkRat total 100 then
        (s1 - 5, w1 ++ ["High collision rate detected"], e1,
         r1 ++ ["Network may be congested"])
      else st1
    else st

/-- WiFi signal-quality checks (third block): RSSI tiers, SNR tiers, legacy
PHY, channel width. -/
def wifiCheck (wifi : Option WiFiInfo) (st : HState) : HState :=
  match wifi with
  | none => st
  | some wi =>
    let (score, w, e, r) := st
    let st1 : HState :=
      if wi.rssi < -80 then
        (score - 20, w, e ++ ["Very weak WiFi signal: " ++ toString wi.rssi ++ " dBm"],
         r ++ ["Move closer to access point or use 5GHz band"])
      else if wi.rssi < -70 then
        (score - 10, w ++ ["Weak WiFi signal: " ++ toString wi.rssi ++ " dBm"], e,
         r ++ ["Consider moving closer to access point"])
      else if wi.rssi < -60 then
        (score - 5, w ++ ["Fair WiFi signal: " ++ toString wi.rssi ++ " dBm"], e, r)
      else (score, w, e, r)
    let (s1, w1, e1, r1) := st1
    let st2 : HState :=
      if wi.snr < 20 then
        (s1 - 15, w1, e1 ++ ["Poor signal-to-noise ratio: " ++ toString wi.snr ++ " dB"],
         r1 ++ ["High interference detected, try changing WiFi channel"])
      else if wi.snr < 30 then
        (s1 - 5, w1 ++ ["Low signal-to-noise ratio: " ++ toString wi.snr ++ " dB"], e1, r1)
      else st1
    let (s2, w2, e2, r2) := st2
    let st3 : HState :=
      if wi.phy_mode ≠ "" &&
         (strContains wi.phy_mode "802.11b" || strContains wi.phy_mode "802.11g") then
        (s2, w2 ++ ["Using older WiFi standard: " ++ wi.phy_mode], e2,
         r2 ++ ["Upgrade to WiFi 5 (802.11ac) or WiFi 6 (802.11ax)"])
      else st2
    let (s3, w3, e3, r3) := st3
    if wi.channel_width ≠ 0 && wi.channel_width < 40 && wi.band = "5GHz" then
      (s3, w3 ++ ["Using narrow channel width: " ++ toString wi.channel_width ++ "MHz on 5GHz"],
       e3, r3 ++ ["Configure router for 80MHz or 160MHz channel width"])
    else st3

/-- Per-target ping checks (fourth block): returns the accumulated score
penalty and messages for the whole list, or the `TypeError` the loop raises
when it compares an absent average RTT. -/
def pingChecks : List PingResult → Except String (Int × List String × List String × List String)
  | [] => .ok (0, [], [], [])
  | res :: rest =>
    let (p1, w1, e1, r1) :
        Int × List String × List String × List String :=
      if res.packet_loss > 5 then
        (15, [],
         ["High packet loss to " ++ res.host ++ ": " ++ fmtFixed res.packet_loss 1 ++ "%"],
         ["Check network stability and internet connection"])
      else if res.packet_loss > 1 then
        (5, ["Moderate packet loss to " ++ res.host ++ ": " ++ fmtFixed res.packet_loss 1 ++ "%"],
         [], [])
      else (0, [], [], [])
    match res.avg_rtt with
    | none => .error "TypeError: '>' not supported between instances of 'NoneType' and 'int'"
    | some avg =>
      let (p2, w2, r2) : Int × List String × List String :=
        if avg > 100 then
          (10, ["High latency to " ++ res.host ++ ": " ++ fmtFixed avg 1 ++ " ms"],
           ["Check for network congestion or bandwidth issues"])
        else (0, [], [])
      let (p3, w3, r3) : Int × List String × List String :=
        if res.jitter > 20 then
          (10, ["High jitter to " ++ res.host ++ ": " ++ fmtFixed res.jitter 1 ++ " ms"],
           ["Network instability detected, may affect VoIP and gaming"])
        else if res.jitter > 10 then
          (5, ["Moderate jitter to " ++ res.host ++ ": " ++ fmtFixed res.jitter 1 ++ " ms"], [])
        else (0, [], [])
      match pingChecks rest with
      | .error msg => .error msg
      | .ok (pr, wr, er, rr) =>
        .ok (p1 + p2 + p3 + pr, w1 ++ w2 ++ w3 ++ wr, e1 ++ er, r1 ++ r2 ++ r3 ++ rr)

/-- Speed-test checks (fifth block). -/
def speedCheck (speed : Option SpeedTestResult) (st : HState) : HState :=
  match speed with
  | none => st
  | some sp =>
    let (score, w, e, r) := st
    let st1 : HState :=
      if sp.download_mbps < 10 then
        (score - 10,
         w ++ ["Slow download speed: " ++ fmtFixed sp.download_mbps 1 ++ " Mbps"], e,
         r ++ ["Contact ISP or check for bandwidth throttling"])
      else st
    let (s1, w1, e1, r1) := st1
    if sp.upload_mbps < 5 then
      (s1 - 5, w1 ++ ["Slow upload speed: " ++ fmtFixed sp.upload_mbps 1 ++ " Mbps"], e1, r1)
    else st1

/-- Ping contribution of a full bundle: `None` ping results and an empty ping
list both contribute nothing (the Python truthiness test on the list and the
loop over an empty list coincide). -/
def pingOf (ping_results : Option (List PingResult)) :
    Except String (Int × List String × List String × List String) :=
  match ping_results with
  | none => Except.ok (0, [], [], [])
  | some l => pingChecks l

/-- Embedding of `utils.assess_network_health`. -/
def assess_network_health (interface_info : InterfaceInfo) (metrics : Option NetworkMetrics)
    (wifi_info : Option WiFiInfo) (ping_results : Option (List PingResult))
    (speed_result : Option SpeedTestResult) : Except String HealthStatus :=
  let st1 := statusCheck interface_info (100, [], [], [])
  let st2 := metricsCheck metrics st1
  let st3 := wifiCheck wifi_info st2
  match pingOf ping_results with
  | .error msg => .error msg
  | .ok (pp, pw, pe, pr) =>
    let (s3, w3, e3, r3) := st3
    let st5 := speedCheck speed_result (s3 - pp, w3 ++ pw, e3 ++ pe, r3 ++ pr)
    let (s5, w5, e5, r5) := st5
    let score := max 0 s5
    .ok { overall := HealthStatus.from_score score, score := score,
          warnings := w5, errors := e5, recommendations := r5 }

/-! ### Score-penalty views of the engine's blocks

Each block above subtracts a penalty that depends only on the block's own
input, never on the running score; the following definitions give those
penalties in closed form, for use in the scoring lemmas. -/

/-- Score penalty of the interface-status block. -/
def statusPen (interface_info : InterfaceInfo) : Int :=
  if interface_info.status ≠ "active" then 50 else 0

/-- Score penalty of the error-rate/collision block. -/
def metricsPen (metrics : Option NetworkMetrics) : Int :=
  match metrics with
  | none => 0
  | some m =>
    let total : Int := m.packets_in + m.packets_out
    if total > 0 then
      let error_rate : ℚ := mkRat ((m.errors_in + m.errors_out) * 100) total.toNat
      (if error_rate > 1 then 20 else if error_rate > mkRat 1 10 then 10 else 0) +
      (if mkRat m.collisions 1 > mkRat total 100 then 5 else 0)
    else 0

/-- Score penalty of the RSSI tier chain. -/
def rssiPen (rssi : Int) : Int :=
  if rssi < -80 then 20 else if rssi < -70 then 10 else if rssi < -60 then 5 else 0

/-- Score penalty of the SNR tier chain. -/
def snrPen (snr : Int) : Int :=
  if snr < 20 then 15 else if snr < 30 then 5 else 0

/-- Score penalty of the WiFi block (the PHY and channel-width checks carry
no penalty). -/
def wifiPen (wifi : Option WiFiInfo) : Int :=
  match wifi with
  | none => 0
  | some wi => rssiPen wi.rssi + snrPen wi.snr

/-- Score penalty of the speed-test block. -/
def speedPen (speed : Option SpeedTestResult) : Int :=
  match speed with
  | none => 0
  | some sp =>
    (if sp.download_mbps < 10 then 10 else 0) + (if sp.upload_mbps < 5 then 5 else 0)

/-- Packet-loss penalty tier of one ping target. -/
def lossPen (loss : ℚ) : Int :=
  if loss > 5 then 15 else if loss > 1 then 5 else 0

/-- Average-RTT penalty of one ping target (the loop raises before scoring
when the average is absent, so the `none` value is never charged). -/
def rttPen (avg : Option ℚ) : Int :=
  match avg with
  | none => 0
  | some v => if v > 100 then 10 else 0

/-- Jitter penalty tier of one ping target. -/
def jitterPen (j : ℚ) : Int :=
  if j > 20 then 10 else if j > 10 then 5 else 0

/-- Total score penalty one ping target contributes to the loop. -/
def pingPen1 (res : PingResult) : Int :=
  lossPen res.packet_loss + rttPen res.avg_rtt + jitterPen res.jitter

/-! ## Scanner framework

Each regular expression the repository uses is embedded as a dedicated
matcher `List Char → Option (capture × rest)` implementing the pattern at a
fixed start position; `searchAux` supplies `re.search`'s leftmost-match
semantics and `findAllAux` supplies `re.findall`/`re.finditer`'s
non-overlapping scan.  All the repository's patterns are deterministic under
greedy matching except `\s*(.+)` (where the engine backtracks into `\s*` when
only whitespace remains on the line), which `restOfLineCap` reproduces. -/

/-- Match a literal at the start; returns the rest. -/
def matchLit (lit : List Char) (cs : List Char) : Option (List Char) :=
  if listStartsWith cs lit then some (cs.drop lit.length) else none

/-- Case-insensitive literal match. -/
def matchLitCI (lit : List Char) (cs : List Char) : Option (List Char) :=
  if listStartsWithCI cs lit then some (cs.drop lit.length) else none

/-- Greedy `p+`: a non-empty run of class characters, with the rest. -/
def takeWhile1 (p : Char → Bool) (cs : List Char) : Option (List Char × List Char) :=
  let t := cs.takeWhile p
  if t.isEmpty then none else some (t, cs.drop t.length)

/-- Greedy `\s+`, keeping only the rest. -/
def ws1 (cs : List Char) : Option (List Char) :=
  (takeWhile1 pyIsSpace cs).map (fun pr => pr.2)

/-- Greedy `\s*` (never fails). -/
def wsDrop (cs : List Char) : List Char :=
  cs.dropWhile pyIsSpace

/-- `\d+\.\d+\.\d+\.\d+` (dotted-decimal address); deterministic because a
digit run can never end before a literal `.`. -/
def matchIp (cs : List Char) : Option (List Char × List Char) := do
  let (d1, r1) ← takeWhile1 pyIsDigit cs
  let r1 ← matchLit ['.'] r1
  let (d2, r2) ← takeWhile1 pyIsDigit r1
  let r2 ← matchLit ['.'] r2
  let (d3, r3) ← takeWhile1 pyIsDigit r2
  let r3 ← matchLit ['.'] r3
  let (d4, r4) ← takeWhile1 pyIsDigit r3
  some (d1 ++ '.' :: d2 ++ '.' :: d3 ++ '.' :: d4, r4)

/-- Helper for `restOfLineCap`: largest whitespace-prefix length `w` (at most
the argument, at least `minWs`) such that a character exists at position `w`
and is not a newline.  This is the backtracking order of a greedy `\s*`
followed by `(.+)`. -/
def rolPick (cs : List Char) (minWs : Nat) : Nat → Option Nat
  | 0 =>
    if minWs = 0 then
      match cs.get? 0 with
      | some c => if c ≠ '\n' then some 0 else none
      | none => none
    else none
  | w + 1 =>
    if minWs ≤ w + 1 &&
       (match cs.get? (w + 1) with
        | some c => c ≠ '\n'
        | none => false) then some (w + 1)
    else rolPick cs minWs w

/-- `\s*(.+)` (with `minWs = 0`) or `\s+([^\n]+)` (with `minWs = 1`):
skip whitespace — which may even cross newlines — then capture the remainder
of the line, backtracking into the whitespace when the line has nothing
else.  Returns the capture and the rest after it. -/
def restOfLineCap (minWs : Nat) (cs : List Char) : Option (List Char × List Char) :=
  let bigW := (cs.takeWhile pyIsSpace).length
  match rolPick cs minWs bigW with
  | none => none
  | some w =>
    let rest := cs.drop w
    let cap := rest.takeWhile (fun c => c ≠ '\n')
    some (cap, rest.drop cap.length)

/-- `re.search`: try the matcher at each start position, leftmost first. -/
def searchAux {α : Type} (m : List Char → Option α) : List Char → Option α
  | [] => m []
  | c :: cs =>
    match m (c :: cs) with
    | some r => some r
    | none => searchAux m cs

/-- `re.finditer`/`re.findall` scan: leftmost matches, continuing after each
match's end.  The fuel starts at the list length; every matcher here consumes
at least one character, so the fuel never runs out before the text does. -/
def findAllAux {α : Type} (m : List Char → Option (α × List Char)) :
    Nat → List Char → List α
  | 0, _ => []
  | _ + 1, [] => []
  | fuel + 1, c :: cs =>
    match m (c :: cs) with
    | some (a, rest) => a :: findAllAux m fuel rest
    | none => findAllAux m fuel cs

/-- All non-overlapping matches of a matcher in a text. -/
def findAll {α : Type} (m : List Char → Option (α × List Char)) (cs : List Char) : List α :=
  findAllAux m cs.length cs

/-! ## `parsers/ifconfig.py` -/

/-- `ether\s+([0-9a-f:]+)` with `re.IGNORECASE`. -/
def matchEther (cs : List Char) : Option (List Char × List Char) := do
  let r ← matchLitCI "ether".data cs
  let r ← ws1 r
  takeWhile1 (fun c => isHexAny c || c = ':') r

/-- `inet\s+(\d+\.\d+\.\d+\.\d+)\s+netmask\s+0x([0-9a-f]+)`. -/
def matchInetNetmask (cs : List Char) : Option ((List Char × List Char) × List Char) := do
  let r ← matchLit "inet".data cs
  let r ← ws1 r
  let (ip, r) ← matchIp r
  let r ← ws1 r
  let r ← matchLit "netmask".data r
  let r ← ws1 r
  let r ← matchLit "0x".data r
  let (hexs, r) ← takeWhile1 isHexLower r
  some ((ip, hexs), r)

/-- `inet6\s+([0-9a-f:]+)` with `re.IGNORECASE`. -/
def matchInet6 (cs : List Char) : Option (List Char × List Char) := do
  let r ← matchLitCI "inet6".data cs
  let r ← ws1 r
  takeWhile1 (fun c => isHexAny c || c = ':') r

/-- `status:\s+(\w+)`. -/
def matchStatusTok (cs : List Char) : Option (List Char × List Char) := do
  let r ← matchLit "status:".data cs
  let r ← ws1 r
  takeWhile1 pyIsWord r

/-- `media:\s+([^\n]+)`. -/
def matchMedia (cs : List Char) : Option (List Char × List Char) := do
  let r ← matchLit "media:".data cs
  restOfLineCap 1 r

/-- `mtu\s+(\d+)`. -/
def matchMtu (cs : List Char) : Option (List Char × List Char) := do
  let r ← matchLit "mtu".data cs
  let r ← ws1 r
  takeWhile1 pyIsDigit r

/-- Block isolation of `parse_ifconfig`: collect from the line starting with
`<name>:` until the next unindented non-empty line. -/
def blockLinesAux (header : String) : List String → Bool → List String
  | [], _ => []
  | line :: rest, inb =>
    if pyStartsWith line header then line :: blockLinesAux header rest true
    else if inb && line ≠ "" && !(pyStartsWith line "\t" || pyStartsWith line " ") then []
    else if inb then line :: blockLinesAux header rest true
    else blockLinesAux header rest false

/-- `'.'.join(str(int(hex_mask[i:i+2], 16)) for i in range(0, 8, 2))`: decode
a hex netmask two digits at a time; a slice past the end of a short mask is
the empty string, and `int('', 16)` raises `ValueError`. -/
def netmaskConv (hm : List Char) : Except String String := do
  let b0 ← pyIntHex ((hm.drop 0).take 2)
  let b1 ← pyIntHex ((hm.drop 2).take 2)
  let b2 ← pyIntHex ((hm.drop 4).take 2)
  let b3 ← pyIntHex ((hm.drop 6).take 2)
  return toString b0 ++ "." ++ toString b1 ++ "." ++ toString b2 ++ "." ++ toString b3

/-- Embedding of `parse_ifconfig`; the `Except` layer carries the
`ValueError` that the netmask decode can raise. -/
def parse_ifconfig (output : String) (interface_name : String) :
    Except String (Option InterfaceInfo) := do
  let lines := pySplitChar output '\n'
  let block_lines := blockLinesAux (interface_name ++ ":") lines false
  if block_lines.isEmpty then
    return none
  else
    let block := joinWith "\n" block_lines
    let mac_address : String :=
      match searchAux matchEther block.data with
      | some (cap, _) => ⟨cap⟩
      | none => ""
    let ipNm ← (match searchAux matchInetNetmask block.data with
                | none => Except.ok (none : Option (String × String))
                | some ((ip, hm), _) => do
                  let nm ← netmaskConv hm
                  Except.ok (some ((⟨ip⟩ : String), nm)))
    let ipv6_addresses := (findAll matchInet6 block.data).map fun cap => (⟨cap⟩ : String)
    let status : String :=
      match searchAux matchStatusTok block.data with
      | some (cap, _) => ⟨cap⟩
      | none => "unknown"
    let media_type : String :=
      match searchAux matchMedia block.data with
      | some (cap, _) => pyStrip ⟨cap⟩
      | none => ""
    let mtu : Int :=
      match searchAux matchMtu block.data with
      | some (cap, _) => ((cap.foldl (fun a c => a * 10 + digitVal c) 0 : Nat) : Int)
      | none => 0
    return some
      { name := interface_name, hardware_port := "", mac_address := mac_address,
        ipv4_address := ipNm.map Prod.fst, ipv6_addresses := ipv6_addresses,
        netmask := ipNm.map Prod.snd, status := status, media_type := media_type,
        mtu := mtu }

/-! ## `parsers/system_profiler.py` -/

/-- `str.split(':', 1)[1]`: everything after the first colon (callers
guarantee the colon exists). -/
def afterColon (s : String) : String :=
  ⟨(s.data.dropWhile (fun c => c ≠ ':')).drop 1⟩

/-- Python-dict insertion into an association list: replace the value in
place when the key exists, else append. -/
def dictInsert (m : List (String × String)) (k v : String) : List (String × String) :=
  if m.any (fun p => p.1 = k) then
    m.map (fun p => if p.1 = k then (k, v) else p)
  else m ++ [(k, v)]

/-- Loop of `parse_hardware_port_mapping`: thread the pending hardware-port
label (`current_port`) and the mapping.  A `Device:` line records a mapping
only when the pending label is truthy, i.e. present and non-empty. -/
def phpmAux : List String → Option String → List (String × String) → List (String × String)
  | [], _, m => m
  | l :: rest, cur, m =>
    let line := pyStrip l
    if pyStartsWith line "Hardware Port:" then
      phpmAux rest (some (pyStrip (afterColon line))) m
    else if pyStartsWith line "Device:" then
      match cur with
      | some p =>
        if p ≠ "" then phpmAux rest none (dictInsert m (pyStrip (afterColon line)) p)
        else phpmAux rest cur m
      | none => phpmAux rest cur m
    else phpmAux rest cur m

/-- Embedding of `parse_hardware_port_mapping`; the Python dict is an
insertion-ordered association list. -/
def parse_hardware_port_mapping (output : String) : List (String × String) :=
  phpmAux (pySplitChar (pyStrip output) '\n') none []

/-- `nameserver\[\d+\]\s*:\s*(\d+\.\d+\.\d+\.\d+)`. -/
def matchNameserver (cs : List Char) : Option (List Char × List Char) := do
  let r ← matchLit "nameserver[".data cs
  let (_, r) ← takeWhile1 pyIsDigit r
  let r ← matchLit "]".data r
  let r ← matchLit ":".data (wsDrop r)
  matchIp (wsDrop r)

/-- `list(dict.fromkeys(l))`: drop later duplicates, keeping first-seen
order. -/
def dedupFirstAux : List String → List String → List String
  | [], _ => []
  | x :: xs, seen =>
    if x ∈ seen then dedupFirstAux xs seen else x :: dedupFirstAux xs (x :: seen)

/-- First-seen de-duplication. -/
def dedupFirst (l : List String) : List String :=
  dedupFirstAux l []

/-- The raw `re.findall` address list of `parse_dns_servers`, before
de-duplication. -/
def dnsMatches (output : String) : List String :=
  (findAll matchNameserver output.data).map fun cap => (⟨cap⟩ : String)

/-- Embedding of `parse_dns_servers`. -/
def parse_dns_servers (output : String) : List String :=
  dedupFirst (dnsMatches output)

/-! ## `parsers/airport.py` -/

/-- `<key>:\s*(.+)` at a fixed start. -/
def matchKeyVal (key : List Char) (cs : List Char) : Option (List Char × List Char) := do
  let r ← matchLit (key ++ [':']) cs
  restOfLineCap 0 r

/-- `extract_value` of `parse_airport_info`: first `<key>:\s*(.+)` match,
stripped. -/
def extract_value (output key : String) : Option String :=
  (searchAux (matchKeyVal key.data) output.data).map fun pr => pyStrip ⟨pr.1⟩

/-- `extract_int` of `parse_airport_info`: take the extracted value, keep
only digits and minus signs, and fall back to the default when `int()`
fails. -/
def extract_int (output key : String) (dflt : Int) : Int :=
  match extract_value output key with
  | none => dflt
  | some v =>
    if v = "" then dflt
    else
      match pyIntParse ⟨v.data.filter (fun c => pyIsDigit c || c = '-')⟩ with
      | some n => n
      | none => dflt

/-- Embedding of `parse_airport_info`.  The record's `band` is modelled from
the spec (derived 2.4 GHz / 5 GHz classification from the channel; the record
class is outside the given sources); `snr` is set to `rssi - noise` exactly
as the constructor call does. -/
def parse_airport_info (output : String) : Option WiFiInfo :=
  if output = "" || strContains output "AirPort: Off" then none
  else
    let ssid := (extract_value output "SSID").getD ""
    if ssid = "" then none
    else
      let rssi := extract_int output "agrCtlRSSI" 0
      let noise := extract_int output "agrCtlNoise" 0
      let channel := extract_int output "channel" 0
      some
        { ssid := ssid, bssid := (extract_value output "BSSID").getD "",
          channel := channel, rssi := rssi, noise := noise, snr := rssi - noise,
          tx_rate := extract_int output "lastTxRate" 0,
          mcs_index := extract_int output "MCS" (-1),
          phy_mode := (extract_value output "PHY Mode").getD "",
          security := (extract_value output "link auth").getD "",
          channel_width := extract_int output "channelWidth" 0,
          band := if channel > 14 then "5GHz" else "2.4GHz" }

/-! ## `parsers/netstat.py` -/

/-- Row decode of `parse_netstat_interface`: the `int()` conversions of
tokens 4–9, plus token 10 when present; any `ValueError` rejects the row. -/
def netstatBuild (interface_name : String) (parts : List String) : Option NetworkMetrics :=
  (pyIntParse (parts.getD 4 "")).bind fun pin =>
  (pyIntParse (parts.getD 5 "")).bind fun ein =>
  (pyIntParse (parts.getD 6 "")).bind fun bin =>
  (pyIntParse (parts.getD 7 "")).bind fun pout =>
  (pyIntParse (parts.getD 8 "")).bind fun eout =>
  (pyIntParse (parts.getD 9 "")).bind fun bout =>
  (if parts.length > 10 then pyIntParse (parts.getD 10 "") else some 0).bind fun coll =>
  some { interface := interface_name, packets_in := pin, errors_in := ein,
         bytes_in := bin, packets_out := pout, errors_out := eout,
         bytes_out := bout, collisions := coll }

/-- Loop of `parse_netstat_interface`: scan the lines; a line that starts
with the interface name but fails the token-count or integer checks is
skipped and the scan continues. -/
def netstatLoop (interface_name : String) : List String → Option NetworkMetrics
  | [] => none
  | line :: rest =>
    if pyStartsWith line interface_name then
      let parts := pySplitWs line
      if parts.length ≥ 10 then
        match netstatBuild interface_name parts with
        | some m => some m
        | none => netstatLoop interface_name rest
      else netstatLoop interface_name rest
    else netstatLoop interface_name rest

/-- Embedding of `parse_netstat_interface`. -/
def parse_netstat_interface (output : String) (interface_name : String) :
    Option NetworkMetrics :=
  netstatLoop interface_name (pySplitChar (pyStrip output) '\n')

/-! ## `parsers/dhcp.py` -/

/-- `<label>\s*(\d+\.\d+\.\d+\.\d+)` at a fixed start. -/
def matchLabeledIp (label : String) (cs : List Char) : Option (List Char × List Char) := do
  let r ← matchLit label.data cs
  matchIp (wsDrop r)

/-- `<label>\s*\{([^}]+)\}` at a fixed start. -/
def matchBraceList (label : String) (cs : List Char) : Option (List Char × List Char) := do
  let r ← matchLit label.data cs
  let r ← matchLit ['\x7b'] (wsDrop r)
  let (cap, r) ← takeWhile1 (fun c => c ≠ '\x7d') r
  let r ← matchLit ['\x7d'] r
  some (cap, r)

/-- `domain_name \(string\):\s*(.+)` at a fixed start. -/
def matchDomainName (cs : List Char) : Option (List Char × List Char) := do
  let r ← matchLit "domain_name (string):".data cs
  restOfLineCap 0 r

/-- `lease_time \(uint32\):\s*0x([0-9a-fA-F]+)` at a fixed start. -/
def matchLeaseTime (cs : List Char) : Option (List Char × List Char) := do
  let r ← matchLit "lease_time (uint32):".data cs
  let r ← matchLit "0x".data (wsDrop r)
  takeWhile1 isHexAny r

/-- Embedding of `parse_dhcp_info`.  The DNS list is the comma-split,
per-entry-stripped content of the brace group, exactly as the source builds
it; the router keeps only the first comma-separated value. -/
def parse_dhcp_info (output : String) : Option DHCPInfo :=
  if !(strContains output "op = BOOTREPLY") && !(strContains output "op = BOOTREQUEST") then
    none
  else
    some
      { is_dhcp := true,
        server := (searchAux (matchLabeledIp "server_identifier (ip):") output.data).map
          fun pr => (⟨pr.1⟩ : String),
        router := (searchAux (matchBraceList "router (ip_mult):") output.data).map
          fun pr => pyStrip ((pySplitChar ⟨pr.1⟩ ',').headD ""),
        dns_servers :=
          match searchAux (matchBraceList "domain_name_server (ip_mult):") output.data with
          | some pr => (pySplitChar ⟨pr.1⟩ ',').map pyStrip
          | none => [],
        domain_name := (searchAux matchDomainName output.data).map
          fun pr => pyStrip ⟨pr.1⟩,
        lease_time := (searchAux matchLeaseTime output.data).map
          fun pr => (hexVal pr.1 : Int),
        subnet_mask := (searchAux (matchLabeledIp "subnet_mask (ip):") output.data).map
          fun pr => (⟨pr.1⟩ : String) }

/-! ## `collectors/offline.py` listings

`get_arp_cache` and `get_active_connections` run an external command and then
parse its captured standard output; the execution step is I/O outside the
core, so the embeddings take that captured text as their argument. -/

/-- An ARP-cache entry dict. -/
structure ArpEntry where
  hostname : String
  ip : String
  mac : String
  interface : String
  deriving DecidableEq, Repr

/-- `(\S+)\s+\((\d+\.\d+\.\d+\.\d+)\)\s+at\s+([0-9a-f:]+)\s+on\s+(\w+)` at a
fixed start.  Every greedy run in the pattern is followed by a character its
class excludes, so maximal munch is exact here. -/
def matchArpEntry (cs : List Char) : Option (ArpEntry × List Char) := do
  let (host, r) ← takeWhile1 (fun c => !pyIsSpace c) cs
  let r ← ws1 r
  let r ← matchLit ['('] r
  let (ip, r) ← matchIp r
  let r ← matchLit [')'] r
  let r ← ws1 r
  let r ← matchLit "at".data r
  let r ← ws1 r
  let (mac, r) ← takeWhile1 (fun c => isHexLower c || c = ':') r
  let r ← ws1 r
  let r ← matchLit "on".data r
  let r ← ws1 r
  let (iface, r) ← takeWhile1 pyIsWord r
  some ({ hostname := ⟨host⟩, ip := ⟨ip⟩, mac := ⟨mac⟩, interface := ⟨iface⟩ }, r)

/-- Embedding of the parsing core of `get_arp_cache`: every `re.finditer`
match of the ARP line pattern over the command's captured output.  The
function returns all entries — it applies no size cap. -/
def get_arp_cache (stdout : String) : List ArpEntry :=
  findAll matchArpEntry stdout.data

/-- An active-connection entry dict. -/
structure ConnEntry where
  command : String
  pid : String
  user : String
  protocol : String
  state : String
  deriving DecidableEq, Repr

/-- Row decode of `get_active_connections`: rows with at least nine
whitespace-delimited tokens contribute an entry; the state column may be
absent. -/
def connRow (line : String) : Option ConnEntry :=
  let parts := pySplitWs line
  if parts.length ≥ 9 then
    some { command := parts.getD 0 "", pid := parts.getD 1 "", user := parts.getD 2 "",
           protocol := parts.getD 7 "",
           state := if parts.length > 9 then parts.getD 9 "" else "" }
  else none

/-- Embedding of the parsing core of `get_active_connections`: skip the
header line, decode rows, and keep at most the first 50 entries
(`connections[:50]`). -/
def get_active_connections (stdout : String) : List ConnEntry :=
  (((pySplitChar (pyStrip stdout) '\n').drop 1).filterMap connRow).take 50

/-! ## Spec-side characterizations

Second definitions, written from the words of the claims being checked, to be
compared with the source embeddings above. -/

/-- Fold a pair sequence into a Python dict (insertion-ordered association
list, later values overwriting in place). -/
def dictOfPairs (ps : List (String × String)) : List (String × String) :=
  ps.foldl (fun m pr => dictInsert m pr.1 pr.2) []

/-- The device/port pairs described by claim C9's words: each `Device:` line
takes the label of the nearest preceding `Hardware Port:` line not yet
consumed by an earlier `Device:` line (whatever that label is), consuming it;
a `Device:` line with no unconsumed preceding port contributes nothing. -/
def claimedPairs : Option String → List String → List (String × String)
  | _, [] => []
  | pend, l :: rest =>
    let line := pyStrip l
    if pyStartsWith line "Hardware Port:" then
      claimedPairs (some (pyStrip (afterColon line))) rest
    else if pyStartsWith line "Device:" then
      match pend with
      | some p => (pyStrip (afterColon line), p) :: claimedPairs none rest
      | none => claimedPairs none rest
    else claimedPairs pend rest

/-- The mapping claim C9 asserts `parse_hardware_port_mapping` produces. -/
def claimedPortMapping (output : String) : List (String × String) :=
  dictOfPairs (claimedPairs none (pySplitChar (pyStrip output) '\n'))

/-- The device/port pairs of the amended claim: as in `claimedPairs`, except
that a pending `Hardware Port:` label that is empty is never consumed — a
`Device:` line seeing it contributes nothing and leaves it pending. -/
def amendedPairs : Option String → List String → List (String × String)
  | _, [] => []
  | pend, l :: rest =>
    let line := pyStrip l
    if pyStartsWith line "Hardware Port:" then
      amendedPairs (some (pyStrip (afterColon line))) rest
    else if pyStartsWith line "Device:" then
      match pend with
      | some p =>
        if p ≠ "" then (pyStrip (afterColon line), p) :: amendedPairs none rest
        else amendedPairs pend rest
      | none => amendedPairs pend rest
    else amendedPairs pend rest

/-- The mapping the amended claim C9 asserts. -/
def amendedPortMapping (output : String) : List (String × String) :=
  dictOfPairs (amendedPairs none (pySplitChar (pyStrip output) '\n'))

/-- Accepted row of claim C10's words: the line starts with the requested
interface name and has at least 10 whitespace-delimited tokens that parse as
the expected integers. -/
def netstatRowOk (interface_name line : String) : Bool :=
  pyStartsWith line interface_name &&
  decide ((pySplitWs line).length ≥ 10) &&
  (netstatBuild interface_name (pySplitWs line)).isSome

/-- The first accepted row of the output, per claim C10's words. -/
def netstatFirstRow (output interface_name : String) : Option String :=
  (pySplitChar (pyStrip output) '\n').find? (netstatRowOk interface_name)

/-! ## Concrete inputs used by the claim checks -/

/-- An `ifconfig` block whose netmask value has only two hex digits. -/
def shortMaskOutput : String :=
  "en0: flags=8863<UP,BROADCAST,SMART,RUNNING> mtu 1500\n" ++
  "\tinet 192.168.1.2 netmask 0xff broadcast 192.168.1.255\n" ++
  "\tstatus: active"

/-- A DHCP packet dump whose DNS-server option repeats one address. -/
def dupDnsPacket : String :=
  "op = BOOTREPLY\n" ++
  "server_identifier (ip): 192.168.1.1\n" ++
  "domain_name_server (ip_mult): \x7b8.8.8.8, 8.8.8.8\x7d\n"

/-- A healthy active interface record. -/
def activeIface : InterfaceInfo :=
  { name := "en0", hardware_port := "Wi-Fi", mac_address := "aa:bb:cc:dd:ee:ff",
    ipv4_address := some "192.168.1.2", ipv6_addresses := [],
    netmask := some "255.255.255.0", status := "active",
    media_type := "autoselect", mtu := 1500 }

/-- The same interface, inactive. -/
def inactiveIface : InterfaceInfo :=
  { activeIface with status := "inactive" }

/-- Metrics with traffic and zero errors. -/
def cleanMetrics : NetworkMetrics :=
  { interface := "en0", packets_in := 1000, errors_in := 0, bytes_in := 500000,
    packets_out := 1000, errors_out := 0, bytes_out := 600000, collisions := 0 }

/-- Wireless info: RSSI −55, SNR 40, 80 MHz channel width on the 5 GHz band. -/
def goodWifi : WiFiInfo :=
  { ssid := "Net", bssid := "a1:b2:c3:d4:e5:f6", channel := 44, rssi := -55,
    noise := -95, snr := 40, tx_rate := 867, mcs_index := 9,
    phy_mode := "802.11ax", security := "wpa2-psk", channel_width := 80,
    band := "5GHz" }

/-- One ping target: 0% loss, 20 ms average RTT, 2 ms jitter. -/
def goodPing : PingResult :=
  { host := "8.8.8.8", packets_sent := 10, packets_received := 10,
    packet_loss := 0, min_rtt := some 15, avg_rtt := some 20,
    max_rtt := some 30, stddev_rtt := some 2 }

/-- A failed/unreachable ping run as the spec represents it: nothing
received, 100% loss, RTT fields absent. -/
def failedPing : PingResult :=
  { host := "8.8.8.8", packets_sent := 10, packets_received := 0,
    packet_loss := 100 }

/-- A 100/20 Mbps speed-test result. -/
def goodSpeed : SpeedTestResult :=
  { download_mbps := 100, upload_mbps := 20 }

/-- Captured `airport -I` output for the C6 witness. -/
def airportSample : String :=
  "     agrCtlRSSI: -55\n     agrCtlNoise: -95\n           SSID: MyNet\n" ++
  "          BSSID: a1:b2:c3:d4:e5:f6\n        channel: 44,80\n" ++
  "       PHY Mode: 802.11ax\n      link auth: wpa2-psk\n" ++
  "     lastTxRate: 867\n            MCS: 9\n   channelWidth: 80\n"

/-- The record `parse_airport_info` extracts from `airportSample`: the
channel value `"44,80"` is digit-stripped to `4480`, and `snr = 40`. -/
def airportWifi : WiFiInfo :=
  { ssid := "MyNet", bssid := "a1:b2:c3:d4:e5:f6", channel := 4480, rssi := -55,
    noise := -95, snr := 40, tx_rate := 867, mcs_index := 9,
    phy_mode := "802.11ax", security := "wpa2-psk", channel_width := 80,
    band := "5GHz" }

/-- An empty-label `Hardware Port:` line followed by a `Device:` line. -/
def emptyPortOutput : String :=
  "Hardware Port:\nDevice: en0"

/-- An ARP listing with 51 well-formed entries. -/
def bigArpOutput : String :=
  (List.replicate 51 "h (1.1.1.1) at a on e\n").foldl (fun a b => a ++ b) ""

/-- A netstat row for `en0` with exactly 10 tokens (no collision column). -/
def tenTokenRow : String :=
  "en0 1500 <Link#4> aa:bb 1 2 3 4 5 6"

/-- A netstat output whose only `en0` row is `tenTokenRow`. -/
def tenTokenNetstat : String :=
  "Name Mtu Network Address Ipkts Ierrs Ibytes Opkts Oerrs Obytes Coll\n" ++ tenTokenRow

/-- The metrics decoded from `tenTokenRow`: the absent collision column
becomes 0. -/
def tenTokenMetrics : NetworkMetrics :=
  { interface := "en0", packets_in := 1, errors_in := 2, bytes_in := 3,
    packets_out := 4, errors_out := 5, bytes_out := 6, collisions := 0 }

/-! ## Scoring lemmas -/

/-- The status block subtracts exactly its penalty from the score. -/
theorem statusCheck_fst (ii : InterfaceInfo) (st : HState) :
    (statusCheck ii st).1 = st.1 - statusPen ii := by
  obtain ⟨s, w, e, r⟩ := st
  simp only [statusCheck, statusPen]
  split_ifs <;> simp

/-- The metrics block subtracts exactly its penalty from the score. -/
theorem metricsCheck_fst (m : Option NetworkMetrics) (st : HState) :
    (metricsCheck m st).1 = st.1 - metricsPen m := by
  obtain ⟨s, w, e, r⟩ := st
  cases m with
  | none => simp [metricsCheck, metricsPen]
  | some mm =>
    simp only [metricsCheck, metricsPen]
    split_ifs <;> simp <;> omega

/-- The WiFi block subtracts exactly its penalty from the score. -/
theorem wifiCheck_fst (w : Option WiFiInfo) (st : HState) :
    (wifiCheck w st).1 = st.1 - wifiPen w := by
  obtain ⟨s, ww, e, r⟩ := st
  cases w with
  | none => simp [wifiCheck, wifiPen]
  | some wi =>
    simp only [wifiCheck, wifiPen, rssiPen, snrPen]
    split_ifs <;> simp <;> omega

/-- The speed block subtracts exactly its penalty from the score. -/
theorem speedCheck_fst (sp : Option SpeedTestResult) (st : HState) :
    (speedCheck sp st).1 = st.1 - speedPen sp := by
  obtain ⟨s, w, e, r⟩ := st
  cases sp with
  | none => simp [speedCheck, speedPen]
  | some v =>
    simp only [speedCheck, speedPen]
    split_ifs <;> (simp; try omega)

/-- A successful assessment means the ping block succeeded. -/
theorem assess_ok_ping (ii : InterfaceInfo) (m : Option NetworkMetrics)
    (w : Option WiFiInfo) (p : Option (List PingResult)) (sp : Option SpeedTestResult)
    (hs : HealthStatus) (h : assess_network_health ii m w p sp = .ok hs) :
    ∃ pp pw pe pr, pingOf p = .ok (pp, pw, pe, pr) := by
  rcases hp : pingOf p with msg | ⟨pp, pw, pe, pr⟩
  · exfalso
    simp only [assess_network_health, hp] at h
    exact Except.noConfusion h
  · exact ⟨pp, pw, pe, pr, rfl⟩

/-- Closed form of a successful assessment's score: 100 minus the penalties
of every block, clamped at zero. -/
theorem assess_ok_score (ii : InterfaceInfo) (m : Option NetworkMetrics)
    (w : Option WiFiInfo) (p : Option (List PingResult)) (sp : Option SpeedTestResult)
    (hs : HealthStatus) (pp : Int) (pw pe pr : List String)
    (hp : pingOf p = .ok (pp, pw, pe, pr))
    (h : assess_network_health ii m w p sp = .ok hs) :
    hs.score = max 0 (100 - statusPen ii - metricsPen m - wifiPen w - pp - speedPen sp) := by
  simp only [assess_network_health, hp] at h
  have hscore := congrArg HealthStatus.score (Except.ok.inj h).symm
  simp only at hscore
  rw [hscore, speedCheck_fst, wifiCheck_fst, metricsCheck_fst, statusCheck_fst]

/-- The RSSI penalty grows as the signal weakens. -/
theorem rssiPen_antitone {r1 r2 : Int} (h : r1 ≤ r2) : rssiPen r2 ≤ rssiPen r1 := by
  simp only [rssiPen]
  split_ifs <;> omega

/-- The SNR penalty grows as the ratio worsens. -/
theorem snrPen_antitone {s1 s2 : Int} (h : s1 ≤ s2) : snrPen s2 ≤ snrPen s1 := by
  simp only [snrPen]
  split_ifs <;> omega

/-- The packet-loss penalty grows with the loss. -/
theorem lossPen_mono {l1 l2 : ℚ} (h : l1 ≤ l2) : lossPen l1 ≤ lossPen l2 := by
  simp only [lossPen]
  split_ifs <;> first | omega | (exfalso; linarith)

/-- The latency penalty grows with the average RTT. -/
theorem rttPen_mono {a1 a2 : ℚ} (h : a1 ≤ a2) : rttPen (some a1) ≤ rttPen (some a2) := by
  simp only [rttPen]
  split_ifs <;> first | omega | (exfalso; linarith)

/-- The jitter penalty grows with the jitter. -/
theorem jitterPen_mono {j1 j2 : ℚ} (h : j1 ≤ j2) : jitterPen j1 ≤ jitterPen j2 := by
  simp only [jitterPen]
  split_ifs <;> first | omega | (exfalso; linarith)

/-- `mkRat` is monotone in the numerator (for a common denominator). -/
theorem mkRat_le_mkRat_num (n : Nat) {a b : Int} (h : a ≤ b) : mkRat a n ≤ mkRat b n := by
  rw [Rat.mkRat_eq_div, Rat.mkRat_eq_div]
  rcases Nat.eq_zero_or_pos n with hn | hn
  · subst hn; simp
  · have hn' : (0 : ℚ) < (n : ℚ) := by exact_mod_cast hn
    exact (div_le_div_iff_of_pos_right hn').2 (by exact_mod_cast h)

/-- The metrics penalty grows with the error counts and the collision count,
holding the packet counters fixed. -/
theorem metricsPen_mono (mm : NetworkMetrics) {e1 f1 c1 e2 f2 c2 : Int}
    (he : e1 ≤ e2) (hf : f1 ≤ f2) (hc : c1 ≤ c2) :
    metricsPen (some { mm with errors_in := e1, errors_out := f1, collisions := c1 }) ≤
      metricsPen (some { mm with errors_in := e2, errors_out := f2, collisions := c2 }) := by
  have hrate : mkRat ((e1 + f1) * 100) (mm.packets_in + mm.packets_out).toNat ≤
      mkRat ((e2 + f2) * 100) (mm.packets_in + mm.packets_out).toNat :=
    mkRat_le_mkRat_num _ (by omega)
  have hcol : mkRat c1 1 ≤ mkRat c2 1 := mkRat_le_mkRat_num _ hc
  simp only [metricsPen]
  dsimp only
  split_ifs <;> first | omega | (exfalso; linarith)

/-- The throughput penalty grows as download and upload speeds drop. -/
theorem speedPen_antitone {d1 u1 d2 u2 : ℚ} (hd : d1 ≤ d2) (hu : u1 ≤ u2) :
    speedPen (some ⟨d2, u2⟩) ≤ speedPen (some ⟨d1, u1⟩) := by
  simp only [speedPen]
  split_ifs <;> first | omega | (exfalso; linarith)

/-- The penalty a successful ping loop charges is the sum of the per-target
penalties. -/
theorem pingChecks_ok_pen :
    ∀ (l : List PingResult) (pp : Int) (pw pe pr : List String),
      pingChecks l = .ok (pp, pw, pe, pr) → pp = (l.map pingPen1).sum := by
  intro l
  induction l with
  | nil =>
    intro pp pw pe pr h
    have h' := Except.ok.inj h
    have hP := congrArg Prod.fst h'
    simp only at hP
    simp [← hP]
  | cons res rest ih =>
    intro pp pw pe pr h
    simp only [pingChecks] at h
    rcases ha : res.avg_rtt with _ | avg <;> rw [ha] at h
    · exact Except.noConfusion h
    · rcases hrest : pingChecks rest with msg | q
      · rw [hrest] at h
        exact Except.noConfusion h
      · obtain ⟨pr', wr', er', rr'⟩ := q
        rw [hrest] at h
        have hpr' := ih pr' wr' er' rr' hrest
        split_ifs at h <;>
          (have h' := Except.ok.inj h
           have hP := congrArg Prod.fst h'
           simp only at hP
           simp only [List.map_cons, List.sum_cons, ← hP, hpr',
             pingPen1, lossPen, rttPen, jitterPen, ha]
           split_ifs <;> omega)

/-! ## Claim theorems -/

/-- C1: the claim says every extractor returns a record, an absent value or a
list and never raises, in particular `parse_ifconfig` on a `netmask 0x...`
value with fewer than 8 hex digits.  In fact on such an input the generator
`int(hex_mask[i:i+2], 16)` reaches an empty slice and raises `ValueError`:
the code contradicts the spec's never-raise contract. -/
theorem c1_parse_ifconfig_raises_on_short_netmask :
    parse_ifconfig shortMaskOutput "en0" =
      .error "ValueError: invalid literal for int() with base 16: ''" := by
  decide

/-- C3: the claim says a bundle containing a failed/unreachable ping result
(nothing received, 100% loss, RTT fields absent) still yields a verdict with
the RTT signal skipped.  In fact the loop's comparison `result.avg_rtt > 100`
on the absent value raises `TypeError`, so no verdict is produced. -/
theorem c3_assess_raises_on_failed_ping :
    assess_network_health activeIface none none (some [failedPing]) none =
      .error "TypeError: '>' not supported between instances of 'NoneType' and 'int'" := by
  decide

/-- C5: holding all other inputs constant, the health score is monotone
non-increasing as any individual penalty-triggering threshold is crossed
further — along the RSSI tiers, the SNR tiers, the error-rate and collision
thresholds, the per-target packet-loss / average-RTT / jitter thresholds, and
the download/upload thresholds; RSSI −65/−75/−85 strictly decreases the score
on a fixed bundle; and every returned score is at least 0. -/
theorem c5_health_score_monotone_and_clamped :
    (∀ (ii : InterfaceInfo) (m : Option NetworkMetrics) (wi : WiFiInfo)
       (p : Option (List PingResult)) (sp : Option SpeedTestResult)
       (r1 r2 : Int) (hs1 hs2 : HealthStatus),
       r1 ≤ r2 →
       assess_network_health ii m (some { wi with rssi := r1 }) p sp = .ok hs1 →
       assess_network_health ii m (some { wi with rssi := r2 }) p sp = .ok hs2 →
       hs1.score ≤ hs2.score) ∧
    (∀ (ii : InterfaceInfo) (m : Option NetworkMetrics) (wi : WiFiInfo)
       (p : Option (List PingResult)) (sp : Option SpeedTestResult)
       (s1 s2 : Int) (hs1 hs2 : HealthStatus),
       s1 ≤ s2 →
       assess_network_health ii m (some { wi with snr := s1 }) p sp = .ok hs1 →
       assess_network_health ii m (some { wi with snr := s2 }) p sp = .ok hs2 →
       hs1.score ≤ hs2.score) ∧
    (∀ (ii : InterfaceInfo) (mm : NetworkMetrics) (w : Option WiFiInfo)
       (p : Option (List PingResult)) (sp : Option SpeedTestResult)
       (e1 f1 c1 e2 f2 c2 : Int) (hs1 hs2 : HealthStatus),
       e1 ≤ e2 → f1 ≤ f2 → c1 ≤ c2 →
       assess_network_health ii
         (some { mm with errors_in := e1, errors_out := f1, collisions := c1 })
         w p sp = .ok hs1 →
       assess_network_health ii
         (some { mm with errors_in := e2, errors_out := f2, collisions := c2 })
         w p sp = .ok hs2 →
       hs2.score ≤ hs1.score) ∧
    (∀ (ii : InterfaceInfo) (m : Option NetworkMetrics) (w : Option WiFiInfo)
       (sp : Option SpeedTestResult) (pre post : List PingResult) (r : PingResult)
       (l1 a1 j1 l2 a2 j2 : ℚ) (hs1 hs2 : HealthStatus),
       l1 ≤ l2 → a1 ≤ a2 → j1 ≤ j2 →
       assess_network_health ii m w
         (some (pre ++ { r with packet_loss := l1, avg_rtt := some a1,
                                stddev_rtt := some j1 } :: post)) sp = .ok hs1 →
       assess_network_health ii m w
         (some (pre ++ { r with packet_loss := l2, avg_rtt := some a2,
                                stddev_rtt := some j2 } :: post)) sp = .ok hs2 →
       hs2.score ≤ hs1.score) ∧
    (∀ (ii : InterfaceInfo) (m : Option NetworkMetrics) (w : Option WiFiInfo)
       (p : Option (List PingResult)) (d1 u1 d2 u2 : ℚ) (hs1 hs2 : HealthStatus),
       d1 ≤ d2 → u1 ≤ u2 →
       assess_network_health ii m w p (some ⟨d1, u1⟩) = .ok hs1 →
       assess_network_health ii m w p (some ⟨d2, u2⟩) = .ok hs2 →
       hs1.score ≤ hs2.score) ∧
    ((assess_network_health activeIface none (some { goodWifi with rssi := -65 })
        none none).map HealthStatus.score = .ok 95 ∧
     (assess_network_health activeIface none (some { goodWifi with rssi := -75 })
        none none).map HealthStatus.score = .ok 90 ∧
     (assess_network_health activeIface none (some { goodWifi with rssi := -85 })
        none none).map HealthStatus.score = .ok 80) ∧
    (∀ (ii : InterfaceInfo) (m : Option NetworkMetrics) (w : Option WiFiInfo)
       (p : Option (List PingResult)) (sp : Option SpeedTestResult) (hs : HealthStatus),
       assess_network_health ii m w p sp = .ok hs → 0 ≤ hs.score) := by
  refine ⟨?_, ?_, ?_, ?_, ?_, ⟨by decide, by decide, by decide⟩, ?_⟩
  · intro ii m wi p sp r1 r2 hs1 hs2 hr h1 h2
    obtain ⟨pp, pw, pe, pr, hp⟩ := assess_ok_ping ii m (some { wi with rssi := r1 }) p sp hs1 h1
    have e1 := assess_ok_score ii m (some { wi with rssi := r1 }) p sp hs1 pp pw pe pr hp h1
    have e2 := assess_ok_score ii m (some { wi with rssi := r2 }) p sp hs2 pp pw pe pr hp h2
    have w1 : wifiPen (some { wi with rssi := r1 }) = rssiPen r1 + snrPen wi.snr := rfl
    have w2 : wifiPen (some { wi with rssi := r2 }) = rssiPen r2 + snrPen wi.snr := rfl
    have hmono := rssiPen_antitone hr
    rw [e1, e2, w1, w2]
    omega
  · intro ii m wi p sp s1 s2 hs1 hs2 hsn h1 h2
    obtain ⟨pp, pw, pe, pr, hp⟩ := assess_ok_ping ii m (some { wi with snr := s1 }) p sp hs1 h1
    have e1 := assess_ok_score ii m (some { wi with snr := s1 }) p sp hs1 pp pw pe pr hp h1
    have e2 := assess_ok_score ii m (some { wi with snr := s2 }) p sp hs2 pp pw pe pr hp h2
    have w1 : wifiPen (some { wi with snr := s1 }) = rssiPen wi.rssi + snrPen s1 := rfl
    have w2 : wifiPen (some { wi with snr := s2 }) = rssiPen wi.rssi + snrPen s2 := rfl
    have hmono := snrPen_antitone hsn
    rw [e1, e2, w1, w2]
    omega
  · intro ii mm w p sp e1f c1f g1f e2f c2f g2f hs1 hs2 he hf hc h1 h2
    obtain ⟨pp, pw, pe, pr, hp⟩ := assess_ok_ping ii
      (some { mm with errors_in := e1f, errors_out := c1f, collisions := g1f }) w p sp hs1 h1
    have q1 := assess_ok_score ii
      (some { mm with errors_in := e1f, errors_out := c1f, collisions := g1f })
      w p sp hs1 pp pw pe pr hp h1
    have q2 := assess_ok_score ii
      (some { mm with errors_in := e2f, errors_out := c2f, collisions := g2f })
      w p sp hs2 pp pw pe pr hp h2
    have hmono := metricsPen_mono mm he hf hc
    rw [q1, q2]
    omega
  · intro ii m w sp pre post r l1 a1 j1 l2 a2 j2 hs1 hs2 hl ha hj h1 h2
    obtain ⟨pp1, pw1, pe1, pr1, hp1⟩ := assess_ok_ping ii m w
      (some (pre ++ { r with packet_loss := l1, avg_rtt := some a1,
                             stddev_rtt := some j1 } :: post)) sp hs1 h1
    obtain ⟨pp2, pw2, pe2, pr2, hp2⟩ := assess_ok_ping ii m w
      (some (pre ++ { r with packet_loss := l2, avg_rtt := some a2,
                             stddev_rtt := some j2 } :: post)) sp hs2 h2
    have q1 := assess_ok_score ii m w _ sp hs1 pp1 pw1 pe1 pr1 hp1 h1
    have q2 := assess_ok_score ii m w _ sp hs2 pp2 pw2 pe2 pr2 hp2 h2
    simp only [pingOf] at hp1 hp2
    have s1 := pingChecks_ok_pen _ _ _ _ _ hp1
    have s2 := pingChecks_ok_pen _ _ _ _ _ hp2
    rw [List.map_append, List.sum_append, List.map_cons, List.sum_cons] at s1 s2
    have hpen : pingPen1 { r with packet_loss := l1, avg_rtt := some a1,
                                  stddev_rtt := some j1 } ≤
        pingPen1 { r with packet_loss := l2, avg_rtt := some a2,
                          stddev_rtt := some j2 } := by
      simp only [pingPen1, PingResult.jitter, Option.getD]
      exact add_le_add (add_le_add (lossPen_mono hl) (rttPen_mono ha)) (jitterPen_mono hj)
    rw [q1, q2]
    omega
  · intro ii m w p d1 u1 d2 u2 hs1 hs2 hd hu h1 h2
    obtain ⟨pp, pw, pe, pr, hp⟩ := assess_ok_ping ii m w p (some ⟨d1, u1⟩) hs1 h1
    have q1 := assess_ok_score ii m w p (some ⟨d1, u1⟩) hs1 pp pw pe pr hp h1
    have q2 := assess_ok_score ii m w p (some ⟨d2, u2⟩) hs2 pp pw pe pr hp h2
    have hmono := speedPen_antitone hd hu
    rw [q1, q2]
    omega
  · intro ii m w p sp hs h
    obtain ⟨pp, pw, pe, pr, hp⟩ := assess_ok_ping ii m w p sp hs h
    rw [assess_ok_score ii m w p sp hs pp pw pe pr hp h]
    omega

/-- Witness for C5: each monotone axis applied at a concrete pair of bundles
(RSSI −75 ≤ −65; SNR 35 ≤ 40; one error added to clean metrics; a ping
target worsened in loss/RTT/jitter; a slower speed test), and the clamp part
on the inactive-interface verdict. -/
theorem c5_health_score_monotone_and_clamped_witness :
    ((90 : Int) ≤ 95) ∧ ((100 : Int) ≤ 100) ∧ ((100 : Int) ≤ 100) ∧
      ((100 : Int) ≤ 100) ∧ ((100 : Int) ≤ 100) ∧ (0 : Int) ≤ 50 := by
  refine ⟨?_, ?_, ?_, ?_, ?_, ?_⟩
  · exact c5_health_score_monotone_and_clamped.1 activeIface none goodWifi none none
      (-75) (-65)
      ⟨"excellent", 90, ["Weak WiFi signal: -75 dBm"], [],
        ["Consider moving closer to access point"]⟩
      ⟨"excellent", 95, ["Fair WiFi signal: -65 dBm"], [], []⟩
      (by omega) (by decide) (by decide)
  · exact c5_health_score_monotone_and_clamped.2.1 activeIface none goodWifi none none
      35 40 ⟨"excellent", 100, [], [], []⟩ ⟨"excellent", 100, [], [], []⟩
      (by omega) (by decide) (by decide)
  · exact c5_health_score_monotone_and_clamped.2.2.1 activeIface cleanMetrics none none none
      0 0 0 1 0 0 ⟨"excellent", 100, [], [], []⟩ ⟨"excellent", 100, [], [], []⟩
      (by omega) (by omega) (by omega) (by decide) (by decide)
  · exact c5_health_score_monotone_and_clamped.2.2.2.1 activeIface none none none [] []
      goodPing 0 20 2 1 30 3 ⟨"excellent", 100, [], [], []⟩ ⟨"excellent", 100, [], [], []⟩
      (by norm_num) (by norm_num) (by norm_num) (by decide) (by decide)
  · exact c5_health_score_monotone_and_clamped.2.2.2.2.1 activeIface none none none
      100 20 200 40 ⟨"excellent", 100, [], [], []⟩ ⟨"excellent", 100, [], [], []⟩
      (by norm_num) (by norm_num) (by decide) (by decide)
  · exact c5_health_score_monotone_and_clamped.2.2.2.2.2.2 inactiveIface none none none none
      ⟨"fair", 50, [], ["Interface is not active"],
        ["Check interface configuration and ensure it's enabled"]⟩
      (by decide)

/-- C7: the perfect bundle — active interface, clean metrics, RSSI −55 / SNR
40 / 80 MHz on 5 GHz, one ping target with 0% loss / 20 ms RTT / 2 ms jitter,
100/20 Mbps — scores exactly 100 with no warnings and no errors. -/
theorem c7_perfect_bundle_scores_100 :
    (assess_network_health activeIface (some cleanMetrics) (some goodWifi)
        (some [goodPing]) (some goodSpeed)).map
      (fun hs => (hs.score, hs.warnings, hs.errors)) = .ok (100, [], []) := by
  decide

/-- C8: an inactive interface with every other input absent yields exactly
the error "Interface is not active", one recommendation, no warnings, and
score 50. -/
theorem c8_inactive_interface_verdict :
    (assess_network_health inactiveIface none none none none).map
      (fun hs => (hs.score, hs.warnings, hs.errors, hs.recommendations)) =
    .ok (50, [], ["Interface is not active"],
         ["Check interface configuration and ensure it's enabled"]) := by
  decide

/-! ## De-duplication lemmas (for C2) -/

/-- Membership in the de-duplication scan: exactly the elements of the input
not already seen. -/
theorem mem_dedupFirstAux (l : List String) (seen : List String) (a : String) :
    a ∈ dedupFirstAux l seen ↔ a ∈ l ∧ a ∉ seen := by
  induction l generalizing seen with
  | nil => simp [dedupFirstAux]
  | cons x xs ih =>
    simp only [dedupFirstAux]
    split_ifs with hx
    · rw [ih]
      simp only [List.mem_cons]
      constructor
      · rintro ⟨h1, h2⟩
        exact ⟨Or.inr h1, h2⟩
      · rintro ⟨h1 | h1, h2⟩
        · exact absurd (h1 ▸ hx) h2
        · exact ⟨h1, h2⟩
    · simp only [List.mem_cons, ih, List.mem_cons, not_or]
      constructor
      · rintro (rfl | ⟨h1, h2, h3⟩)
        · exact ⟨Or.inl rfl, hx⟩
        · exact ⟨Or.inr h1, h3⟩
      · rintro ⟨rfl | h1, h2⟩
        · exact Or.inl rfl
        · by_cases hax : a = x
          · exact Or.inl hax
          · exact Or.inr ⟨h1, hax, h2⟩

/-- The de-duplication scan never emits an element twice. -/
theorem nodup_dedupFirstAux (l : List String) (seen : List String) :
    (dedupFirstAux l seen).Nodup := by
  induction l generalizing seen with
  | nil => simp [dedupFirstAux]
  | cons x xs ih =>
    simp only [dedupFirstAux]
    split_ifs with hx
    · exact ih seen
    · rw [List.nodup_cons]
      refine ⟨fun hmem => ?_, ih (x :: seen)⟩
      exact ((mem_dedupFirstAux xs (x :: seen) x).1 hmem).2 (List.mem_cons_self x seen)

/-- The de-duplication scan emits elements in order of their first occurrence
in the input. -/
theorem pairwise_dedupFirstAux (l : List String) (seen : List String) :
    (dedupFirstAux l seen).Pairwise (fun x y => l.indexOf x < l.indexOf y) := by
  induction l generalizing seen with
  | nil => simp [dedupFirstAux]
  | cons a xs ih =>
    simp only [dedupFirstAux]
    split_ifs with ha
    · refine (ih seen).imp_of_mem ?_
      intro x y hx hy hlt
      have hxa : x ≠ a := fun h => ((mem_dedupFirstAux xs seen x).1 hx).2 (h ▸ ha)
      have hya : y ≠ a := fun h => ((mem_dedupFirstAux xs seen y).1 hy).2 (h ▸ ha)
      rw [List.indexOf_cons_ne _ (Ne.symm hxa), List.indexOf_cons_ne _ (Ne.symm hya)]
      omega
    · rw [List.pairwise_cons]
      constructor
      · intro y hy
        have hya : y ≠ a :=
          fun h => ((mem_dedupFirstAux xs (a :: seen) y).1 hy).2 (h ▸ List.mem_cons_self a seen)
        rw [List.indexOf_cons_self, List.indexOf_cons_ne _ (Ne.symm hya)]
        omega
      · refine (ih (a :: seen)).imp_of_mem ?_
        intro x y hx hy hlt
        have hxa : x ≠ a :=
          fun h => ((mem_dedupFirstAux xs (a :: seen) x).1 hx).2 (h ▸ List.mem_cons_self a seen)
        have hya : y ≠ a :=
          fun h => ((mem_dedupFirstAux xs (a :: seen) y).1 hy).2 (h ▸ List.mem_cons_self a seen)
        rw [List.indexOf_cons_ne _ (Ne.symm hxa), List.indexOf_cons_ne _ (Ne.symm hya)]
        omega

/-- C2 (amended): `parse_dns_servers` returns each address at most once, in
first-seen order of the raw match list; `parse_dhcp_info` keeps its DNS list
as split from the packet dump, so a repeated address stays repeated. -/
theorem c2_dns_lists_dedup_first_seen :
    (∀ output : String,
      (parse_dns_servers output).Nodup ∧
      (∀ a, a ∈ parse_dns_servers output ↔ a ∈ dnsMatches output) ∧
      (parse_dns_servers output).Pairwise
        (fun x y => (dnsMatches output).indexOf x < (dnsMatches output).indexOf y)) ∧
    (parse_dhcp_info dupDnsPacket).map DHCPInfo.dns_servers = some ["8.8.8.8", "8.8.8.8"] := by
  refine ⟨fun output => ⟨?_, fun a => ?_, ?_⟩, by decide⟩
  · exact nodup_dedupFirstAux (dnsMatches output) []
  · rw [parse_dns_servers, dedupFirst, mem_dedupFirstAux]
    simp
  · exact pairwise_dedupFirstAux (dnsMatches output) []

/-- Counterexample for C2 as stated: `parse_dhcp_info` does not de-duplicate
the DNS-server list — a packet dump repeating `8.8.8.8` yields it twice. -/
theorem c2_dhcp_dns_keeps_duplicates :
    (parse_dhcp_info dupDnsPacket).map DHCPInfo.dns_servers = some ["8.8.8.8", "8.8.8.8"] ∧
    ¬ (["8.8.8.8", "8.8.8.8"] : List String).Nodup := by
  exact ⟨by decide, by decide⟩

/-- C6: every wireless-association record `parse_airport_info` returns has
`snr` equal to the extracted `rssi` minus the extracted `noise`. -/
theorem c6_snr_is_rssi_minus_noise :
    ∀ (output : String) (w : WiFiInfo),
      parse_airport_info output = some w → w.snr = w.rssi - w.noise := by
  intro output w h
  simp only [parse_airport_info] at h
  split_ifs at h <;>
    first
      | exact Option.noConfusion h
      | (obtain rfl := Option.some.inj h; rfl)

/-- Witness for C6: the sample airport capture decodes to a record with
`snr = −55 − (−95) = 40`. -/
theorem c6_snr_is_rssi_minus_noise_witness :
    airportWifi.snr = airportWifi.rssi - airportWifi.noise :=
  c6_snr_is_rssi_minus_noise airportSample airportWifi (by decide)

/-- C4 (amended): the active-connections listing is capped at 50 entries,
silently. -/
theorem c4_active_connections_capped :
    ∀ stdout : String, (get_active_connections stdout).length ≤ 50 := by
  intro s
  simp only [get_active_connections]
  rw [List.length_take]
  omega

set_option maxRecDepth 100000 in
/-- Counterexample for C4 as stated: the ARP listing has no cap — 51
well-formed lines yield 51 entries. -/
theorem c4_arp_cache_exceeds_cap :
    ¬ (get_arp_cache bigArpOutput).length ≤ 50 := by
  decide

/-! ## Hardware-port mapping lemmas (for C9) -/

/-- The loop of `parse_hardware_port_mapping` inserts exactly the pairs the
amended description collects, in order. -/
theorem phpmAux_foldl :
    ∀ (lines : List String) (pend : Option String) (m : List (String × String)),
      phpmAux lines pend m =
        (amendedPairs pend lines).foldl (fun acc pr => dictInsert acc pr.1 pr.2) m := by
  intro lines
  induction lines with
  | nil => intro pend m; rfl
  | cons l rest ih =>
    intro pend m
    cases pend with
    | none =>
      simp only [phpmAux, amendedPairs]
      split_ifs <;> exact ih _ _
    | some p =>
      simp only [phpmAux, amendedPairs]
      split_ifs with h1 h2 hp
      · exact ih _ _
      · rw [List.foldl_cons]
        exact ih _ _
      · exact ih _ _
      · exact ih _ _

/-- C9 (amended): the mapping takes, for each `Device:` line, the label of
the nearest preceding `Hardware Port:` line that is non-empty and not yet
consumed; an empty pending label is never consumed and blocks earlier ports;
later duplicates of a device name overwrite its label in place. -/
theorem c9_hardware_port_mapping_characterized :
    ∀ output : String, parse_hardware_port_mapping output = amendedPortMapping output := by
  intro output
  simp only [parse_hardware_port_mapping, amendedPortMapping, dictOfPairs]
  exact phpmAux_foldl _ _ _

/-- Counterexample for C9 as stated: after a `Hardware Port:` line with an
empty label, the claim maps the next device to that (empty) label, but the
truthiness test in the code records nothing. -/
theorem c9_empty_label_diverges :
    parse_hardware_port_mapping emptyPortOutput = [] ∧
    claimedPortMapping emptyPortOutput = [("en0", "")] ∧
    parse_hardware_port_mapping emptyPortOutput ≠ claimedPortMapping emptyPortOutput := by
  exact ⟨by decide, by decide, by decide⟩

/-! ## Netstat characterization lemmas (for C10) -/

/-- A ten-token row decodes with collision count 0. -/
theorem netstatBuild_collisions_ten (name : String) (parts : List String)
    (hlen : parts.length = 10) (m : NetworkMetrics)
    (hb : netstatBuild name parts = some m) : m.collisions = 0 := by
  simp only [netstatBuild, hlen] at hb
  rw [if_neg (by omega : ¬ (10 : Nat) > 10)] at hb
  simp only [Option.bind_eq_some, Option.some.injEq] at hb
  obtain ⟨p4, _, p5, _, p6, _, p7, _, p8, _, p9, _, c0, hc0, hm⟩ := hb
  rw [← hm]
  exact hc0.symm

/-- The scanning loop returns the decode of the first accepted row. -/
theorem netstatLoop_eq_find (name : String) :
    ∀ lines : List String,
      netstatLoop name lines =
        (lines.find? (netstatRowOk name)).bind
          (fun l => netstatBuild name (pySplitWs l)) := by
  intro lines
  induction lines with
  | nil => rfl
  | cons l rest ih =>
    by_cases h1 : pyStartsWith l name
    · by_cases h2 : (pySplitWs l).length ≥ 10
      · rcases hb : netstatBuild name (pySplitWs l) with _ | m
        · have hrow : netstatRowOk name l = false := by
            simp [netstatRowOk, h1, h2, hb]
          simp [netstatLoop, List.find?, hrow, h1, h2, hb, ih]
        · have hrow : netstatRowOk name l = true := by
            simp [netstatRowOk, h1, h2, hb]
          simp [netstatLoop, List.find?, hrow, h1, h2, hb]
      · have hrow : netstatRowOk name l = false := by
          simp [netstatRowOk, h2]
        simp [netstatLoop, List.find?, hrow, h1, h2, ih]
    · have hrow : netstatRowOk name l = false := by
        simp [netstatRowOk, h1]
      simp [netstatLoop, List.find?, hrow, h1, ih]

/-- C10: `parse_netstat_interface` decodes the first line that starts with
the interface name and has at least 10 integer-parsable tokens; a ten-token
row yields collision count 0; no accepted row yields `None`. -/
theorem c10_netstat_first_parsable_row :
    ∀ (output interface_name : String),
      (parse_netstat_interface output interface_name =
        (netstatFirstRow output interface_name).bind
          (fun l => netstatBuild interface_name (pySplitWs l))) ∧
      (∀ l m, netstatFirstRow output interface_name = some l →
        (pySplitWs l).length = 10 →
        parse_netstat_interface output interface_name = some m →
        m.collisions = 0) ∧
      (netstatFirstRow output interface_name = none →
        parse_netstat_interface output interface_name = none) := by
  intro output name
  have h1 := netstatLoop_eq_find name (pySplitChar (pyStrip output) '\n')
  refine ⟨h1, ?_, ?_⟩
  · intro l m hf hlen hp
    rw [parse_netstat_interface, h1] at hp
    rw [netstatFirstRow] at hf
    rw [hf] at hp
    exact netstatBuild_collisions_ten name (pySplitWs l) hlen m hp
  · intro hf
    rw [parse_netstat_interface, h1]
    rw [netstatFirstRow] at hf
    rw [hf]
    rfl

/-- Witness for C10: on `tenTokenNetstat` the first accepted row is the
ten-token `en0` row and the decoded collision count is 0. -/
theorem c10_netstat_first_parsable_row_witness :
    tenTokenMetrics.collisions = 0 :=
  (c10_netstat_first_parsable_row tenTokenNetstat "en0").2.1 tenTokenRow tenTokenMetrics
    (by decide) (by decide) (by decide)

end NetworkAnalyzer
